import Mathlib

/-!
Verification of the schema-validation core and utility helpers of the
ML_MLFlow repository.

The embedding models:
  - src/mlProject/components/data_validation.py, method
    DataValidation.validate_all_columns, as a pure function of the schema,
    the result of loading the table (pandas read_csv), and the prior
    contents of the status file;
  - src/mlProject/utils/common.py, functions read_yaml and get_size.

Machine-level details modelled explicitly:
  - a pandas DataFrame is modelled by its ordered list of columns, each a
    name paired with the string form of its element dtype
    (the value of str(data[col].dtype));
  - a Python dict (the schema) is modelled as an insertion-ordered
    association list;
  - Python repr of the short alphanumeric strings appearing in these
    messages (column names, dtype tags) is a single-quoted copy;
  - Python round is round-half-to-even, and n / 1024 is exact in binary
    floating point for any file size below 2 ^ 53, so the rounding of a
    file size in KB is computed exactly on naturals.
-/

namespace MLMLFlow

/-- Python exceptions relevant to the validator. The first three are what
pandas read_csv and open raise natively. DataLoadError is a wrapper
exception named by the design notes; it does not occur anywhere in the
source, and the constructor exists only so that its absence from every
outcome can be stated. -/
inductive PyExc where
  | fileNotFoundError
  | parserError
  | emptyDataError
  | dataLoadError (cause : PyExc)
deriving DecidableEq, Repr

/-- A loaded pandas DataFrame, reduced to what validate_all_columns
reads from it: the ordered columns, each a name paired with the string
form of its dtype. -/
structure Table where
  cols : List (String × String)
deriving DecidableEq, Repr

/-- data.columns: the column names in order. -/
def Table.columns (t : Table) : List String :=
  t.cols.map Prod.fst

/-- str(data[col].dtype): the dtype tag of the column named col
(first match; pandas read_csv never produces duplicate column names). -/
def Table.dtypeOf (t : Table) (col : String) : Option String :=
  (t.cols.find? (fun p => p.fst == col)).map Prod.snd

/-- The schema: an insertion-ordered mapping from column name to
expected dtype tag (config.all_schema, a Python dict). -/
abbrev Schema := List (String × String)

/-- The single-quote character, written by its code point. -/
def singleQuote : String :=
  String.singleton (Char.ofNat 39)

/-- Python repr of a short alphanumeric string (no quotes, no escapes),
as used for column names and dtype tags in the report messages: the
string between single quotes. -/
def pyStrRepr (s : String) : String :=
  singleQuote ++ s ++ singleQuote

/-- Python str of a list of strings: square brackets around the
comma-joined reprs. -/
def pyListRepr (xs : List String) : String :=
  "[" ++ String.intercalate ", " (xs.map pyStrRepr) ++ "]"

/-- Python str of a bool, as interpolated into the status line. -/
def pyBool (b : Bool) : String :=
  if b then "True" else "False"

/-- missing_columns = [col for col in expected_columns if col not in
data.columns], where expected_columns = list(schema.keys()). -/
def missing_columns (schema : Schema) (t : Table) : List String :=
  (schema.map Prod.fst).filter (fun col => ¬ col ∈ t.columns)

/-- dtype_errors: for each (col, expected_type) of the schema with col
among the columns, the mismatch message when str(data[col].dtype)
differs from expected_type. -/
def dtype_errors (schema : Schema) (t : Table) : List String :=
  schema.filterMap (fun p =>
    match t.dtypeOf p.fst with
    | none => none
    | some d =>
      if d ≠ p.snd then some (p.fst ++ ": expected " ++ p.snd ++ ", got " ++ d)
      else none)

/-- The accumulated message list of one run: the missing-columns message
when any column is missing, then the dtype-mismatch message when any
dtype differs. -/
def messagesOf (schema : Schema) (t : Table) : List String :=
  (if missing_columns schema t = [] then []
   else ["Missing columns: " ++ pyListRepr (missing_columns schema t)])
  ++
  (if dtype_errors schema t = [] then []
   else ["Data type mismatches found: " ++ pyListRepr (dtype_errors schema t)])

/-- The valid flag: starts True and is cleared by each non-empty check. -/
def validOf (schema : Schema) (t : Table) : Bool :=
  (missing_columns schema t).isEmpty && (dtype_errors schema t).isEmpty

/-- Contents written to the status file: the status line with a trailing
newline, then, only when messages exist, the messages joined by newline. -/
def statusContent (valid : Bool) (messages : List String) : String :=
  "Validation status: " ++ pyBool valid ++ "\n" ++
    (if messages = [] then "" else String.intercalate "\n" messages)

/-- One call of DataValidation.validate_all_columns. load is the result
of pd.read_csv on config.unzip_data_dir (the table, or the exception it
raised); statusFile is the contents of config.STATUS_FILE before the
call (none when absent). Returns the outcome (the returned bool, or the
propagated exception: the except clause re-raises e unchanged) paired
with the status file contents after the call. -/
def validate_all_columns (schema : Schema) (load : Except PyExc Table)
    (statusFile : Option String) : Except PyExc Bool × Option String :=
  match load with
  | Except.error e => (Except.error e, statusFile)
  | Except.ok data =>
    (Except.ok (validOf schema data),
     some (statusContent (validOf schema data) (messagesOf schema data)))

/-- Whether a validation outcome is a raised DataLoadError. -/
def isDataLoadErrorOutcome : Except PyExc Bool → Bool
  | Except.error (PyExc.dataLoadError _) => true
  | _ => false

/-- A parsed YAML document, as far as read_yaml inspects it: a mapping
from keys to scalar strings (nesting is irrelevant to the claims). -/
inductive Yaml where
  | mapping (entries : List (String × String))
deriving DecidableEq, Repr

/-- Exceptions arising in read_yaml: BoxValueError from the ConfigBox
constructor, the ValueError it is translated to, a yaml.YAMLError from
safe_load, or an OSError from open. -/
inductive UtilExc where
  | boxValueError
  | valueError (msg : String)
  | yamlError (msg : String)
  | osError (msg : String)
deriving DecidableEq, Repr

/-- The attribute-accessible wrapper returned by read_yaml. -/
structure ConfigBox where
  content : Yaml
deriving DecidableEq, Repr

/-- External collaborator: the ConfigBox constructor. yaml.safe_load
returns None on a file that parses to nothing, and Box raises
BoxValueError when handed None; a mapping is wrapped successfully. -/
def mkConfigBox : Option Yaml → Except UtilExc ConfigBox
  | none => Except.error UtilExc.boxValueError
  | some y => Except.ok ⟨y⟩

/-- read_yaml of src/mlProject/utils/common.py. loaded is the result of
open plus yaml.safe_load (the parsed document, none when the file parses
to nothing, or the exception raised). The try body wraps the content in
a ConfigBox; the except clauses translate BoxValueError into
ValueError with the message yaml file is empty, and re-raise every
other exception unchanged. -/
def read_yaml (loaded : Except UtilExc (Option Yaml)) :
    Except UtilExc ConfigBox :=
  let body : Except UtilExc ConfigBox :=
    match loaded with
    | Except.error e => Except.error e
    | Except.ok content => mkConfigBox content
  match body with
  | Except.error UtilExc.boxValueError =>
      Except.error (UtilExc.valueError "yaml file is empty")
  | Except.error e => Except.error e
  | Except.ok box => Except.ok box

/-- Python round(n / 1024) computed exactly on naturals: true division
by a power of two is exact in binary floating point for n below 2 ^ 53,
and Python round resolves ties to the even integer. -/
def pyRoundDiv1024 (n : Nat) : Nat :=
  let q := n / 1024
  let r := n % 1024
  if r < 512 then q
  else if 512 < r then q + 1
  else if q % 2 = 0 then q else q + 1

/-- get_size of src/mlProject/utils/common.py, as a function of the
file size in bytes reported by os.path.getsize. -/
def get_size (sizeBytes : Nat) : String :=
  "~ " ++ toString (pyRoundDiv1024 sizeBytes) ++ " KB"

/-- A column name is among the columns exactly when the dtype lookup
succeeds. -/
theorem Table.dtypeOf_isSome_iff (t : Table) (c : String) :
    (t.dtypeOf c).isSome = true ↔ c ∈ t.columns := by
  simp [Table.dtypeOf, Table.columns, List.find?_isSome, List.mem_map]

/-- The valid flag is true exactly when every schema key names a column
of the table and every schema key present among the columns carries the
expected dtype tag. -/
theorem validOf_eq_true_iff (schema : Schema) (t : Table) :
    validOf schema t = true ↔
      ((∀ c ∈ schema.map Prod.fst, c ∈ t.columns) ∧
       ∀ p ∈ schema, p.fst ∈ t.columns → t.dtypeOf p.fst = some p.snd) := by
  unfold validOf
  rw [Bool.and_eq_true, List.isEmpty_iff, List.isEmpty_iff]
  unfold missing_columns dtype_errors
  rw [List.filter_eq_nil_iff, List.filterMap_eq_nil_iff]
  constructor
  · rintro ⟨h1, h2⟩
    refine ⟨?_, ?_⟩
    · intro c hc
      by_contra hmem
      exact (h1 c hc) (by simpa using hmem)
    · intro p hp hmem
      have hf := h2 p hp
      cases hd : t.dtypeOf p.fst with
      | none =>
        rw [← Table.dtypeOf_isSome_iff] at hmem
        rw [hd] at hmem
        simp at hmem
      | some d =>
        rw [hd] at hf
        by_cases hde : d = p.snd
        · rw [hde]
        · simp [hde] at hf
  · rintro ⟨h1, h2⟩
    refine ⟨?_, ?_⟩
    · intro c hc
      simp [h1 c hc]
    · intro p hp
      have hmem : p.fst ∈ t.columns :=
        h1 p.fst (List.mem_map.mpr ⟨p, hp, rfl⟩)
      have hd := h2 p hp hmem
      rw [hd]
      simp

/-- Claim C1: for a non-empty schema and a successfully loaded table,
validate_all_columns returns true exactly when every schema key is
among the columns of the table and, for every column present in both,
the observed dtype tag equals the expected tag by exact string
equality. -/
theorem validate_true_iff_schema_matches (schema : Schema) (t : Table)
    (prior : Option String) (_hne : schema ≠ []) :
    (validate_all_columns schema (Except.ok t) prior).fst = Except.ok true ↔
      ((∀ c ∈ schema.map Prod.fst, c ∈ t.columns) ∧
       ∀ p ∈ schema, p.fst ∈ t.columns → t.dtypeOf p.fst = some p.snd) := by
  have h1 : (validate_all_columns schema (Except.ok t) prior).fst
      = Except.ok (validOf schema t) := rfl
  rw [h1, Except.ok.injEq]
  exact validOf_eq_true_iff schema t

/-- Witness for claim C1 at a concrete matching schema and table. -/
theorem validate_true_iff_schema_matches_witness :
    (validate_all_columns [("a", "int64")]
        (Except.ok ⟨[("a", "int64")]⟩) none).fst = Except.ok true :=
  (validate_true_iff_schema_matches [("a", "int64")] ⟨[("a", "int64")]⟩
      none (by decide)).mpr (by decide)

/-- Claim C2: for a run that completes, the returned boolean is false
exactly when the accumulated message list is non-empty; and when the
table has both missing columns and dtype mismatches, the report holds
both the missing-columns message and the dtype-mismatch message. -/
theorem invalid_iff_messages_nonempty (schema : Schema) (t : Table)
    (prior : Option String) :
    ((validate_all_columns schema (Except.ok t) prior).fst
        = Except.ok false ↔ messagesOf schema t ≠ []) ∧
    (missing_columns schema t ≠ [] → dtype_errors schema t ≠ [] →
      ("Missing columns: " ++ pyListRepr (missing_columns schema t))
          ∈ messagesOf schema t ∧
      ("Data type mismatches found: "
            ++ pyListRepr (dtype_errors schema t))
          ∈ messagesOf schema t) := by
  constructor
  · have h1 : (validate_all_columns schema (Except.ok t) prior).fst
        = Except.ok (validOf schema t) := rfl
    rw [h1, Except.ok.injEq]
    unfold validOf messagesOf
    by_cases hm : missing_columns schema t = [] <;>
      by_cases hd : dtype_errors schema t = [] <;>
        simp [hm, hd]
  · intro hm hd
    unfold messagesOf
    simp [hm, hd]

/-- Witness for claim C2 at a table with one missing column and one
dtype mismatch: both messages appear in the report. -/
theorem invalid_iff_messages_nonempty_witness :
    ("Missing columns: "
          ++ pyListRepr (missing_columns
              [("a", "int64"), ("c", "object")] ⟨[("c", "int64")]⟩))
        ∈ messagesOf [("a", "int64"), ("c", "object")] ⟨[("c", "int64")]⟩ ∧
    ("Data type mismatches found: "
          ++ pyListRepr (dtype_errors
              [("a", "int64"), ("c", "object")] ⟨[("c", "int64")]⟩))
        ∈ messagesOf [("a", "int64"), ("c", "object")] ⟨[("c", "int64")]⟩ :=
  (invalid_iff_messages_nonempty [("a", "int64"), ("c", "object")]
      ⟨[("c", "int64")]⟩ none).2 (by decide) (by decide)

/-- Claim C3: on every successful load the status file is written,
whatever its prior contents: the new contents are the status line with
the boolean, followed by the accumulated messages joined by newline
when any exist; when the run is valid the file holds exactly the single
line Validation status: True. -/
theorem status_file_always_written (schema : Schema) (t : Table)
    (prior : Option String) :
    (validate_all_columns schema (Except.ok t) prior).snd =
      some ("Validation status: " ++ pyBool (validOf schema t) ++ "\n" ++
        (if messagesOf schema t = [] then ""
         else String.intercalate "\n" (messagesOf schema t))) ∧
    (validOf schema t = true →
      (validate_all_columns schema (Except.ok t) prior).snd
        = some "Validation status: True\n") := by
  refine ⟨rfl, ?_⟩
  intro hv
  have hmsg : messagesOf schema t = [] := by
    unfold validOf at hv
    rw [Bool.and_eq_true, List.isEmpty_iff, List.isEmpty_iff] at hv
    unfold messagesOf
    rw [hv.1, hv.2]
    simp
  show some (statusContent (validOf schema t) (messagesOf schema t)) = _
  rw [hv, hmsg]
  rfl

/-- Witness for claim C3: a matching run overwrites stale prior
contents with the single valid status line. -/
theorem status_file_always_written_witness :
    (validate_all_columns [("a", "int64")]
        (Except.ok ⟨[("a", "int64")]⟩) (some "old contents")).snd
      = some "Validation status: True\n" :=
  (status_file_always_written [("a", "int64")] ⟨[("a", "int64")]⟩
      (some "old contents")).2 (by decide)

/-- Claim C4: when loading the table raises an exception,
validate_all_columns propagates that exception to the caller and leaves
the status file exactly as it was before the call, whatever its prior
state. -/
theorem load_failure_aborts_without_write (schema : Schema) (e : PyExc)
    (prior : Option String) :
    validate_all_columns schema (Except.error e) prior
      = (Except.error e, prior) :=
  rfl

/-- Claim C9: with the empty schema, every successfully loaded table is
vacuously valid: validate_all_columns returns true and writes the
single status line reading Validation status: True. -/
theorem empty_schema_trivially_valid (t : Table) (prior : Option String) :
    (validate_all_columns [] (Except.ok t) prior).fst = Except.ok true ∧
    (validate_all_columns [] (Except.ok t) prior).snd
      = some "Validation status: True\n" := by
  refine ⟨rfl, ?_⟩
  show some (statusContent true []) = _
  rfl

/-- Claim C6: read_yaml fails with the empty-configuration error (a
ValueError carrying the message yaml file is empty) exactly on a file
that parses to nothing, and re-raises every parse exception from the
YAML loader unchanged. -/
theorem read_yaml_empty_and_parse_errors :
    read_yaml (Except.ok none)
      = Except.error (UtilExc.valueError "yaml file is empty") ∧
    ∀ msg : String,
      read_yaml (Except.error (UtilExc.yamlError msg))
        = Except.error (UtilExc.yamlError msg) :=
  ⟨rfl, fun _ => rfl⟩

/-- Claim C7: get_size reports a file of exactly 2048 bytes as 2 KB and
a file of exactly 1500 bytes as 1 KB. -/
theorem get_size_2048_and_1500 :
    get_size 2048 = "~ 2 KB" ∧ get_size 1500 = "~ 1 KB" :=
  ⟨rfl, rfl⟩

/-- Claim C10: the KB rounding of get_size resolves half-KB ties to the
even integer: 2560 bytes (2.5 KB) reports as 2 KB while 3584 bytes
(3.5 KB) reports as 4 KB. -/
theorem get_size_rounds_half_to_even :
    get_size 2560 = "~ 2 KB" ∧ get_size 3584 = "~ 4 KB" :=
  ⟨rfl, rfl⟩

/-- Claim C8: validate_all_columns is idempotent with respect to the
status file: a second call with the same schema and the same load
result, started from the file state the first call left behind,
produces exactly the same outcome and the same file contents. -/
theorem validate_idempotent (schema : Schema) (load : Except PyExc Table)
    (prior : Option String) :
    validate_all_columns schema load
        (validate_all_columns schema load prior).snd
      = validate_all_columns schema load prior := by
  cases load <;> rfl

/-- Claim C5, counterexample: a load failure with FileNotFoundError is
propagated as FileNotFoundError itself; the outcome is not a
DataLoadError wrapping the cause, because no such wrapper exists in the
code. -/
theorem load_error_not_wrapped_at_fileNotFound :
    (validate_all_columns [("a", "int64")]
        (Except.error PyExc.fileNotFoundError) none).fst
      = Except.error PyExc.fileNotFoundError ∧
    isDataLoadErrorOutcome
        (validate_all_columns [("a", "int64")]
          (Except.error PyExc.fileNotFoundError) none).fst
      = false :=
  ⟨rfl, rfl⟩

/-- Claim C5, amended: every I/O or parse failure raised while loading
the table is propagated to the caller unmodified, with no wrapping,
masking or retrying; the outcome is a DataLoadError only in the
impossible case that the loader itself raised one. -/
theorem load_error_propagated_unmodified (schema : Schema) (e : PyExc)
    (prior : Option String) :
    (validate_all_columns schema (Except.error e) prior).fst
        = Except.error e ∧
    isDataLoadErrorOutcome
        (validate_all_columns schema (Except.error e) prior).fst
      = isDataLoadErrorOutcome (Except.error e) :=
  ⟨rfl, rfl⟩

end MLMLFlow
